import Mathlib

/-!
# Switching Power Modes (PSoC 6) : shallow embedding of `main.c`

The C program keeps its state in globals and in the peripherals it drives.
Here that state is one record `Sys` threaded through every function, and every
call into the HAL/PDL appends an `Action` to `Sys.log`, so that the order of
the calls can be stated.

* machine integers are `Nat`; the 32-bit press counter wraps with `% 2 ^ 32`;
* the `float` duty cycles are only ever the literals `50.0f`, `90.0f`, `0.0f`;
  they are kept as the whole number of percent that the literal denotes;
* the two pointer parameters of a callback (`params`) are never read by the
  source and are left out.
-/

set_option linter.unusedVariables false

namespace PowerModes

/-! ## Macros (main.c lines 51-67) -/

def QUICK_PRESS_COUNT : Nat := 2
def SHORT_PRESS_COUNT : Nat := 20
def LONG_PRESS_COUNT : Nat := 200

def PWM_FAST_FREQ : Nat := 5
def PWM_SLOW_FREQ : Nat := 3
def PWM_DIM_FREQ : Nat := 100
def PWM_50P_DUTY_CYCLE : Nat := 50
def PWM_10P_DUTY_CYCLE : Nat := 90
def PWM_100P_DUTY_CYCLE : Nat := 0

def CLOCK_50_MHZ : Nat := 50000000
def CLOCK_100_MHZ : Nat := 100000000
def SYSTEM_CLOCK : Nat := 0

/-- The enum `en_switch_event_t` (main.c lines 69-75). -/
inductive en_switch_event_t where
  | SWITCH_NO_EVENT
  | SWITCH_QUICK_PRESS
  | SWITCH_SHORT_PRESS
  | SWITCH_LONG_PRESS
  deriving DecidableEq, Repr

/-! ## Types of the power-management library used by the source -/

/-- The callback modes a handler is invoked with. -/
inductive cy_en_syspm_callback_mode_t where
  | CY_SYSPM_CHECK_READY
  | CY_SYSPM_CHECK_FAIL
  | CY_SYSPM_BEFORE_TRANSITION
  | CY_SYSPM_AFTER_TRANSITION
  deriving DecidableEq, Repr

/-- The two status values the source uses. -/
inductive cy_en_syspm_status_t where
  | CY_SYSPM_SUCCESS
  | CY_SYSPM_FAIL
  deriving DecidableEq, Repr

/-- The callback types (transition kinds) the source registers for. -/
inductive cy_en_syspm_callback_type_t where
  | CY_SYSPM_SLEEP
  | CY_SYSPM_DEEPSLEEP
  | CY_SYSPM_LP
  | CY_SYSPM_ULP
  deriving DecidableEq, Repr

/-- The system regulator mode that `Cy_SysPm_IsSystemUlp` asks about. -/
inductive SystemMode where
  | LP
  | ULP
  deriving DecidableEq, Repr

/-- One call into the HAL/PDL, or one act of the platform, as recorded in the log. -/
inductive Action where
  | gpio_read
  | delay (ms : Nat)
  | pwm_stop
  | pwm_set_duty_cycle (duty : Nat) (freq : Nat)
  | pwm_start
  | tcpwm_pwm_enable
  | clock_set_frequency (clock : Nat) (hz : Nat)
  | request (kind : cy_en_syspm_callback_type_t)
  | enter (kind : cy_en_syspm_callback_type_t)
  deriving DecidableEq, Repr

/-- The state of the program: the system mode, the PWM that drives the LED
(the global `pwm`), the system clock, and the log of calls made so far. -/
structure Sys where
  mode : SystemMode
  pwmRunning : Bool
  pwmDuty : Nat
  pwmFreq : Nat
  clockHz : Nat
  log : List Action
  deriving DecidableEq, Repr

/-- Append one action to the log. -/
def Sys.emit (s : Sys) (a : Action) : Sys :=
  { s with log := s.log ++ [a] }

/-! ## The HAL/PDL services the source calls -/

/-- Modelled from the spec: `is_system_ulp() -> bool`, the query of the LP/ULP distinction. -/
def Cy_SysPm_IsSystemUlp (s : Sys) : Bool :=
  s.mode == SystemMode.ULP

/-- Modelled from the spec: `indicator.stop()`, the output stops; duty and frequency stay. -/
def cyhal_pwm_stop (s : Sys) : Sys :=
  { s with pwmRunning := false, log := s.log ++ [Action.pwm_stop] }

/-- Modelled from the spec: `indicator.set(duty, frequency)`. -/
def cyhal_pwm_set_duty_cycle (duty freq : Nat) (s : Sys) : Sys :=
  { s with pwmDuty := duty, pwmFreq := freq,
           log := s.log ++ [Action.pwm_set_duty_cycle duty freq] }

/-- Modelled from the spec: `indicator.start()`, the output runs. -/
def cyhal_pwm_start (s : Sys) : Sys :=
  { s with pwmRunning := true, log := s.log ++ [Action.pwm_start] }

/-- The PDL call `Cy_TCPWM_PWM_Enable` that the deep sleep callback makes before
`cyhal_pwm_start` (line 395). The library is not part of the source: the call is
recorded in the log and nothing more is assumed of it. -/
def Cy_TCPWM_PWM_Enable (s : Sys) : Sys :=
  s.emit Action.tcpwm_pwm_enable

/-- Modelled from the spec: `set_clock_frequency(domain, hz)`; only the system clock
(`SYSTEM_CLOCK`) is tracked. -/
def cyhal_system_clock_set_frequency (clock hz : Nat) (s : Sys) : Sys :=
  { s with clockHz := if clock = SYSTEM_CLOCK then hz else s.clockHz,
           log := s.log ++ [Action.clock_set_frequency clock hz] }

/-- Modelled from the spec: `sleep_for(duration)`, in milliseconds. -/
def Cy_SysLib_Delay (ms : Nat) (s : Sys) : Sys :=
  s.emit (Action.delay ms)

/-! ## `get_switch_event` (main.c lines 251-284) -/

/-- The comparison chain of `get_switch_event` (lines 253, 266-278), on the value
of `pressCount` once the loop has ended. -/
def get_switch_event_classify (pressCount : Nat) : en_switch_event_t :=
  let event := en_switch_event_t.SWITCH_NO_EVENT
  if pressCount > LONG_PRESS_COUNT then
    en_switch_event_t.SWITCH_LONG_PRESS
  else if pressCount > SHORT_PRESS_COUNT then
    en_switch_event_t.SWITCH_SHORT_PRESS
  else if pressCount > QUICK_PRESS_COUNT then
    en_switch_event_t.SWITCH_QUICK_PRESS
  else
    event

/-- The `while` loop of `get_switch_event` (lines 257-264). `btn i` is what the
`i`-th read of the button returns (`true` is `CYBSP_BTN_PRESSED`); the result is
the index of the next read, the press count and the state. `none`: the loop has
not ended within `fuel` iterations. -/
def get_switch_event_while (btn : Nat → Bool) :
    Nat → Nat → Nat → Sys → Option (Nat × Nat × Sys)
  | 0, _, _, _ => none
  | fuel + 1, i, pressCount, s =>
    let s := s.emit Action.gpio_read
    if btn i = true then
      let s := Cy_SysLib_Delay 10 s
      get_switch_event_while btn fuel (i + 1) ((pressCount + 1) % 2 ^ 32) s
    else
      some (i + 1, pressCount, s)

/-- The function `get_switch_event`: the loop, the classification, the final delay.
It returns the event, the index of the next read and the state. -/
def get_switch_event (btn : Nat → Bool) (fuel : Nat) (i : Nat) (s : Sys) :
    Option (en_switch_event_t × Nat × Sys) :=
  match get_switch_event_while btn fuel i 0 s with
  | none => none
  | some (i, pressCount, s) =>
    let event := get_switch_event_classify pressCount
    let s := Cy_SysLib_Delay 10 s
    some (event, i, s)

/-! ## The six callbacks (main.c lines 304-568) -/

open cy_en_syspm_callback_mode_t cy_en_syspm_status_t cy_en_syspm_callback_type_t

/-- The function `pwm_sleep_callback` (lines 304-355). -/
def pwm_sleep_callback (mode : cy_en_syspm_callback_mode_t) (s : Sys) :
    cy_en_syspm_status_t × Sys :=
  let status := CY_SYSPM_FAIL
  let s := cyhal_pwm_stop s
  let (status, s) :=
    match mode with
    | CY_SYSPM_BEFORE_TRANSITION =>
      let s :=
        if Cy_SysPm_IsSystemUlp s then
          cyhal_pwm_set_duty_cycle PWM_10P_DUTY_CYCLE PWM_DIM_FREQ s
        else
          cyhal_pwm_set_duty_cycle PWM_100P_DUTY_CYCLE PWM_DIM_FREQ s
      (CY_SYSPM_SUCCESS, s)
    | CY_SYSPM_AFTER_TRANSITION =>
      let s :=
        if Cy_SysPm_IsSystemUlp s then
          cyhal_pwm_set_duty_cycle PWM_50P_DUTY_CYCLE PWM_SLOW_FREQ s
        else
          cyhal_pwm_set_duty_cycle PWM_50P_DUTY_CYCLE PWM_FAST_FREQ s
      (CY_SYSPM_SUCCESS, s)
    | _ => (CY_SYSPM_SUCCESS, s)
  let s := cyhal_pwm_start s
  (status, s)

/-- The function `pwm_deepsleep_callback` (lines 372-410). -/
def pwm_deepsleep_callback (mode : cy_en_syspm_callback_mode_t) (s : Sys) :
    cy_en_syspm_status_t × Sys :=
  let status := CY_SYSPM_FAIL
  let s := cyhal_pwm_stop s
  let (status, s) :=
    match mode with
    | CY_SYSPM_AFTER_TRANSITION =>
      let s :=
        if Cy_SysPm_IsSystemUlp s then
          cyhal_pwm_set_duty_cycle PWM_50P_DUTY_CYCLE PWM_SLOW_FREQ s
        else
          cyhal_pwm_set_duty_cycle PWM_50P_DUTY_CYCLE PWM_FAST_FREQ s
      let s := Cy_TCPWM_PWM_Enable s
      let s := cyhal_pwm_start s
      (CY_SYSPM_SUCCESS, s)
    | _ => (CY_SYSPM_SUCCESS, s)
  (status, s)

/-- The function `pwm_enter_lp_callback` (lines 426-453). -/
def pwm_enter_lp_callback (mode : cy_en_syspm_callback_mode_t) (s : Sys) :
    cy_en_syspm_status_t × Sys :=
  let status := CY_SYSPM_FAIL
  let s := cyhal_pwm_stop s
  let (status, s) :=
    match mode with
    | CY_SYSPM_AFTER_TRANSITION =>
      let s := cyhal_pwm_set_duty_cycle PWM_50P_DUTY_CYCLE PWM_FAST_FREQ s
      (CY_SYSPM_SUCCESS, s)
    | _ => (CY_SYSPM_SUCCESS, s)
  let s := cyhal_pwm_start s
  (status, s)

/-- The function `pwm_enter_ulp_callback` (lines 469-495). -/
def pwm_enter_ulp_callback (mode : cy_en_syspm_callback_mode_t) (s : Sys) :
    cy_en_syspm_status_t × Sys :=
  let status := CY_SYSPM_FAIL
  let s := cyhal_pwm_stop s
  let (status, s) :=
    match mode with
    | CY_SYSPM_AFTER_TRANSITION =>
      let s := cyhal_pwm_set_duty_cycle PWM_50P_DUTY_CYCLE PWM_SLOW_FREQ s
      (CY_SYSPM_SUCCESS, s)
    | _ => (CY_SYSPM_SUCCESS, s)
  let s := cyhal_pwm_start s
  (status, s)

/-- The function `clock_enter_lp_callback` (lines 511-532). -/
def clock_enter_lp_callback (mode : cy_en_syspm_callback_mode_t) (s : Sys) :
    cy_en_syspm_status_t × Sys :=
  let status := CY_SYSPM_FAIL
  let (status, s) :=
    match mode with
    | CY_SYSPM_AFTER_TRANSITION =>
      let s := cyhal_system_clock_set_frequency SYSTEM_CLOCK CLOCK_100_MHZ s
      (CY_SYSPM_SUCCESS, s)
    | _ => (CY_SYSPM_SUCCESS, s)
  (status, s)

/-- The function `clock_enter_ulp_callback` (lines 548-568). -/
def clock_enter_ulp_callback (mode : cy_en_syspm_callback_mode_t) (s : Sys) :
    cy_en_syspm_status_t × Sys :=
  let status := CY_SYSPM_FAIL
  let (status, s) :=
    match mode with
    | CY_SYSPM_BEFORE_TRANSITION =>
      let s := cyhal_system_clock_set_frequency SYSTEM_CLOCK CLOCK_50_MHZ s
      (CY_SYSPM_SUCCESS, s)
    | _ => (CY_SYSPM_SUCCESS, s)
  (status, s)

/-! ## Callback registrations and the platform transition primitive -/

/-- Modelled from the spec: the skip flags of a registration ("which phases/checks to
bypass"), one bit per callback mode as in the library header. -/
def CY_SYSPM_SKIP_CHECK_READY : Nat := 0x01
/-- Modelled from the spec: skip flag of the check-fail mode. -/
def CY_SYSPM_SKIP_CHECK_FAIL : Nat := 0x02
/-- Modelled from the spec: skip flag of the before-transition mode. -/
def CY_SYSPM_SKIP_BEFORE_TRANSITION : Nat := 0x04
/-- Modelled from the spec: skip flag of the after-transition mode. -/
def CY_SYSPM_SKIP_AFTER_TRANSITION : Nat := 0x08

/-- Modelled from the spec: the skip flag that bypasses a given callback mode. -/
def skip_flag_of : cy_en_syspm_callback_mode_t → Nat
  | CY_SYSPM_CHECK_READY => CY_SYSPM_SKIP_CHECK_READY
  | CY_SYSPM_CHECK_FAIL => CY_SYSPM_SKIP_CHECK_FAIL
  | CY_SYSPM_BEFORE_TRANSITION => CY_SYSPM_SKIP_BEFORE_TRANSITION
  | CY_SYSPM_AFTER_TRANSITION => CY_SYSPM_SKIP_AFTER_TRANSITION

/-- The fields of `cyhal_system_callback_t` that main.c fills in: the callback
function, the callback type and the skip mode (lines 147-186). -/
structure cyhal_system_callback_t where
  callback : cy_en_syspm_callback_mode_t → Sys → cy_en_syspm_status_t × Sys
  type : cy_en_syspm_callback_type_t
  skipMode : Nat

/-- Whether a registration takes part in a phase of a transition: its type matches
and the phase is not among its skip flags. -/
def cyhal_system_callback_t.takes_part (cb : cyhal_system_callback_t)
    (kind : cy_en_syspm_callback_type_t) (mode : cy_en_syspm_callback_mode_t) : Bool :=
  cb.type == kind && (cb.skipMode &&& skip_flag_of mode) == 0

/-- Modelled from the spec: "the registry, for each phase, invokes all registered
handlers whose filter matches the transition kind, in registration order; if any
handler reports failure the registry surfaces it". -/
def Cy_SysPm_ExecuteCallback (cbs : List cyhal_system_callback_t)
    (kind : cy_en_syspm_callback_type_t) (mode : cy_en_syspm_callback_mode_t) (s : Sys) :
    cy_en_syspm_status_t × Sys :=
  match cbs with
  | [] => (CY_SYSPM_SUCCESS, s)
  | cb :: rest =>
    if cb.takes_part kind mode then
      let (status, s) := cb.callback mode s
      let (statusRest, s) := Cy_SysPm_ExecuteCallback rest kind mode s
      (if status = CY_SYSPM_FAIL then CY_SYSPM_FAIL else statusRest, s)
    else
      Cy_SysPm_ExecuteCallback rest kind mode s

/-- Modelled from the spec: what the platform does between the two phases. Entering
LP or ULP switches the system mode; Sleep and DeepSleep suspend execution until the
wake source fires and resume in the LP/ULP mode that was current. -/
def platform_enter (kind : cy_en_syspm_callback_type_t) (s : Sys) : Sys :=
  match kind with
  | CY_SYSPM_LP => { s with mode := SystemMode.LP, log := s.log ++ [Action.enter kind] }
  | CY_SYSPM_ULP => { s with mode := SystemMode.ULP, log := s.log ++ [Action.enter kind] }
  | _ => s.emit (Action.enter kind)

/-- Modelled from the spec: the first phase of a transition: the request is taken and
the matching Before handlers run; the result is the state in which the platform
makes the switch (or suspends). -/
def platform_before (cbs : List cyhal_system_callback_t)
    (kind : cy_en_syspm_callback_type_t) (s : Sys) : cy_en_syspm_status_t × Sys :=
  let s := s.emit (Action.request kind)
  Cy_SysPm_ExecuteCallback cbs kind CY_SYSPM_BEFORE_TRANSITION s

/-- Modelled from the spec: the two-phase transition `Requested → BeforeTransition →
(the platform does the actual switch) → AfterTransition → Complete`. -/
def platform_transition (cbs : List cyhal_system_callback_t)
    (kind : cy_en_syspm_callback_type_t) (s : Sys) : cy_en_syspm_status_t × Sys :=
  let (before, s) := platform_before cbs kind s
  let s := platform_enter kind s
  let (after, s) := Cy_SysPm_ExecuteCallback cbs kind CY_SYSPM_AFTER_TRANSITION s
  (if before = CY_SYSPM_FAIL then CY_SYSPM_FAIL else after, s)

/-- Modelled from the spec: `enter_system_lp()`; "requesting a transition to the mode
that is already current is a no-op (state unchanged, no callback invoked)". -/
def Cy_SysPm_SystemEnterLp (cbs : List cyhal_system_callback_t) (s : Sys) :
    cy_en_syspm_status_t × Sys :=
  if s.mode = SystemMode.LP then (CY_SYSPM_SUCCESS, s)
  else platform_transition cbs CY_SYSPM_LP s

/-- Modelled from the spec: `enter_system_ulp()`, with the same no-op rule. -/
def Cy_SysPm_SystemEnterUlp (cbs : List cyhal_system_callback_t) (s : Sys) :
    cy_en_syspm_status_t × Sys :=
  if s.mode = SystemMode.ULP then (CY_SYSPM_SUCCESS, s)
  else platform_transition cbs CY_SYSPM_ULP s

/-- Modelled from the spec: `enter_sleep()`, a blocking call that suspends execution
and returns upon wake, invoking the registered before/after callbacks. -/
def cyhal_system_sleep (cbs : List cyhal_system_callback_t) (s : Sys) :
    cy_en_syspm_status_t × Sys :=
  platform_transition cbs CY_SYSPM_SLEEP s

/-- Modelled from the spec: `enter_deep_sleep()`, as `enter_sleep()` for DeepSleep. -/
def cyhal_system_deepsleep (cbs : List cyhal_system_callback_t) (s : Sys) :
    cy_en_syspm_status_t × Sys :=
  platform_transition cbs CY_SYSPM_DEEPSLEEP s

/-- Modelled from the spec: `register_transition_callback(registration)`; the registry
keeps registration order. -/
def cyhal_system_register_callback (registry : List cyhal_system_callback_t)
    (cb : cyhal_system_callback_t) : List cyhal_system_callback_t :=
  registry ++ [cb]

/-! ## `main` (main.c lines 116-234) -/

/-- The registration `pwmSleepCb` (lines 147-152). -/
def pwmSleepCb : cyhal_system_callback_t :=
  { callback := pwm_sleep_callback
    type := CY_SYSPM_SLEEP
    skipMode := CY_SYSPM_SKIP_CHECK_READY ||| CY_SYSPM_SKIP_CHECK_FAIL }

/-- The registration `pwmDeepSleepCb` (lines 153-158). -/
def pwmDeepSleepCb : cyhal_system_callback_t :=
  { callback := pwm_deepsleep_callback
    type := CY_SYSPM_DEEPSLEEP
    skipMode := CY_SYSPM_SKIP_CHECK_READY ||| CY_SYSPM_SKIP_CHECK_FAIL }

/-- The registration `pwmEnterUlpCb` (lines 159-165). -/
def pwmEnterUlpCb : cyhal_system_callback_t :=
  { callback := pwm_enter_ulp_callback
    type := CY_SYSPM_ULP
    skipMode := CY_SYSPM_SKIP_BEFORE_TRANSITION ||| CY_SYSPM_SKIP_CHECK_READY |||
      CY_SYSPM_SKIP_CHECK_FAIL }

/-- The registration `pwmEnterLpCb` (lines 166-172). -/
def pwmEnterLpCb : cyhal_system_callback_t :=
  { callback := pwm_enter_lp_callback
    type := CY_SYSPM_LP
    skipMode := CY_SYSPM_SKIP_BEFORE_TRANSITION ||| CY_SYSPM_SKIP_CHECK_READY |||
      CY_SYSPM_SKIP_CHECK_FAIL }

/-- The registration `clkEnterUlpCb` (lines 173-179). -/
def clkEnterUlpCb : cyhal_system_callback_t :=
  { callback := clock_enter_ulp_callback
    type := CY_SYSPM_ULP
    skipMode := CY_SYSPM_SKIP_AFTER_TRANSITION ||| CY_SYSPM_SKIP_CHECK_READY |||
      CY_SYSPM_SKIP_CHECK_FAIL }

/-- The registration `clkEnterLpCb` (lines 180-186). -/
def clkEnterLpCb : cyhal_system_callback_t :=
  { callback := clock_enter_lp_callback
    type := CY_SYSPM_LP
    skipMode := CY_SYSPM_SKIP_BEFORE_TRANSITION ||| CY_SYSPM_SKIP_CHECK_READY |||
      CY_SYSPM_SKIP_CHECK_FAIL }

/-- The registry once `main` has made its six registrations (lines 189-194). -/
def main_callbacks : List cyhal_system_callback_t :=
  let registry := cyhal_system_register_callback [] pwmSleepCb
  let registry := cyhal_system_register_callback registry pwmDeepSleepCb
  let registry := cyhal_system_register_callback registry pwmEnterUlpCb
  let registry := cyhal_system_register_callback registry pwmEnterLpCb
  let registry := cyhal_system_register_callback registry clkEnterUlpCb
  cyhal_system_register_callback registry clkEnterLpCb

/-- The `switch` statement in the loop of `main` (lines 198-232), on the event that
`get_switch_event` returned. The status the platform calls return is not used. -/
def main_switch (event : en_switch_event_t) (s : Sys) : Sys :=
  match event with
  | en_switch_event_t.SWITCH_QUICK_PRESS =>
    if Cy_SysPm_IsSystemUlp s then
      (Cy_SysPm_SystemEnterLp main_callbacks s).2
    else
      (Cy_SysPm_SystemEnterUlp main_callbacks s).2
  | en_switch_event_t.SWITCH_SHORT_PRESS =>
    let s := (cyhal_system_sleep main_callbacks s).2
    Cy_SysLib_Delay 100 s
  | en_switch_event_t.SWITCH_LONG_PRESS =>
    let s := (cyhal_system_deepsleep main_callbacks s).2
    Cy_SysLib_Delay 100 s
  | _ => s

/-- One pass of the `for(;;)` loop of `main` (lines 196-233). -/
def main_loop_pass (btn : Nat → Bool) (fuel : Nat) (i : Nat) (s : Sys) : Option (Nat × Sys) :=
  match get_switch_event btn fuel i s with
  | none => none
  | some (event, i, s) => some (i, main_switch event s)

/-- A state in which `main` enters its loop: the PWM has been set to the fast
blink and started (lines 142-144). What `cybsp_init` leaves behind is not in the
source; the system is taken to come up in LP at 100 MHz. -/
def main_init : Sys :=
  let s : Sys := { mode := SystemMode.LP, pwmRunning := false, pwmDuty := 0, pwmFreq := 0,
                   clockHz := CLOCK_100_MHZ, log := [] }
  let s := cyhal_pwm_set_duty_cycle PWM_50P_DUTY_CYCLE PWM_FAST_FREQ s
  cyhal_pwm_start s

/-- The log entries that are transition requests. -/
def Action.is_request : Action → Bool
  | Action.request _ => true
  | _ => false

/-- The calls made between an earlier state `s` and a later state `s'`. -/
def Sys.since (s s' : Sys) : List Action :=
  s'.log.drop s.log.length

/-- A run of PWM calls that stops the output first, sets duty cycle and frequency
next, and starts the output last. -/
def stops_applies_restarts : List Action → Bool
  | Action.pwm_stop :: Action.pwm_set_duty_cycle _ _ :: rest =>
    rest.getLast? == some Action.pwm_start
  | _ => false

/-- The share of the period, in percent, during which the LED is lit when the PWM
runs at `duty` percent: the LED is driven active-low, which is why the source
names `90.0f` `PWM_10P_DUTY_CYCLE` and `0.0f` `PWM_100P_DUTY_CYCLE` (lines 60-62,
and the comments at lines 317 and 322). -/
def led_on_percent (duty : Nat) : Nat :=
  100 - duty

/-- The calls that `d` passes through the loop of `get_switch_event` make: each pass
reads the button and then waits 10 ms. -/
def pressed_samples : Nat → List Action
  | 0 => []
  | d + 1 => Action.gpio_read :: Action.delay 10 :: pressed_samples d

/-- The part of the state other than the log: the power mode, the indicator
(running flag, duty cycle, frequency) and the clock frequency. -/
def Sys.observable (s : Sys) : SystemMode × Bool × Nat × Nat × Nat :=
  (s.mode, s.pwmRunning, s.pwmDuty, s.pwmFreq, s.clockHz)

/-! ## Which handlers the registry of `main` runs in each phase -/

section Registry

variable (s : Sys)

theorem exec_sleep_before :
    Cy_SysPm_ExecuteCallback main_callbacks CY_SYSPM_SLEEP CY_SYSPM_BEFORE_TRANSITION s =
      pwm_sleep_callback CY_SYSPM_BEFORE_TRANSITION s := rfl

theorem exec_sleep_after :
    Cy_SysPm_ExecuteCallback main_callbacks CY_SYSPM_SLEEP CY_SYSPM_AFTER_TRANSITION s =
      pwm_sleep_callback CY_SYSPM_AFTER_TRANSITION s := rfl

theorem exec_deepsleep_before :
    Cy_SysPm_ExecuteCallback main_callbacks CY_SYSPM_DEEPSLEEP CY_SYSPM_BEFORE_TRANSITION s =
      pwm_deepsleep_callback CY_SYSPM_BEFORE_TRANSITION s := rfl

theorem exec_deepsleep_after :
    Cy_SysPm_ExecuteCallback main_callbacks CY_SYSPM_DEEPSLEEP CY_SYSPM_AFTER_TRANSITION s =
      pwm_deepsleep_callback CY_SYSPM_AFTER_TRANSITION s := rfl

theorem exec_ulp_before :
    Cy_SysPm_ExecuteCallback main_callbacks CY_SYSPM_ULP CY_SYSPM_BEFORE_TRANSITION s =
      clock_enter_ulp_callback CY_SYSPM_BEFORE_TRANSITION s := rfl

theorem exec_ulp_after :
    Cy_SysPm_ExecuteCallback main_callbacks CY_SYSPM_ULP CY_SYSPM_AFTER_TRANSITION s =
      pwm_enter_ulp_callback CY_SYSPM_AFTER_TRANSITION s := rfl

theorem exec_lp_before :
    Cy_SysPm_ExecuteCallback main_callbacks CY_SYSPM_LP CY_SYSPM_BEFORE_TRANSITION s =
      (CY_SYSPM_SUCCESS, s) := rfl

theorem exec_lp_after :
    Cy_SysPm_ExecuteCallback main_callbacks CY_SYSPM_LP CY_SYSPM_AFTER_TRANSITION s =
      clock_enter_lp_callback CY_SYSPM_AFTER_TRANSITION
        (pwm_enter_lp_callback CY_SYSPM_AFTER_TRANSITION s).2 := rfl

end Registry

/-! ## Evaluation of the loop body on a symbolic state -/

section Evaluation

open Action

variable (r : Bool) (d f c : Nat) (l : List Action)

theorem main_switch_quick_from_lp :
    main_switch en_switch_event_t.SWITCH_QUICK_PRESS ⟨SystemMode.LP, r, d, f, c, l⟩ =
      ⟨SystemMode.ULP, true, 50, 3, 50000000,
        l ++ [request CY_SYSPM_ULP, clock_set_frequency 0 50000000, enter CY_SYSPM_ULP,
              pwm_stop, pwm_set_duty_cycle 50 3, pwm_start]⟩ := by
  simp [main_switch, Cy_SysPm_IsSystemUlp, Cy_SysPm_SystemEnterUlp, platform_transition,
    platform_before, platform_enter, Sys.emit, exec_ulp_before, exec_ulp_after,
    pwm_enter_ulp_callback, clock_enter_ulp_callback,
    cyhal_pwm_stop, cyhal_pwm_start, cyhal_pwm_set_duty_cycle, cyhal_system_clock_set_frequency,
    PWM_50P_DUTY_CYCLE, PWM_SLOW_FREQ, SYSTEM_CLOCK, CLOCK_50_MHZ]

theorem main_switch_quick_from_ulp :
    main_switch en_switch_event_t.SWITCH_QUICK_PRESS ⟨SystemMode.ULP, r, d, f, c, l⟩ =
      ⟨SystemMode.LP, true, 50, 5, 100000000,
        l ++ [request CY_SYSPM_LP, enter CY_SYSPM_LP, pwm_stop, pwm_set_duty_cycle 50 5,
              pwm_start, clock_set_frequency 0 100000000]⟩ := by
  simp [main_switch, Cy_SysPm_IsSystemUlp, Cy_SysPm_SystemEnterLp, platform_transition,
    platform_before, platform_enter, Sys.emit, exec_lp_before, exec_lp_after,
    pwm_enter_lp_callback, clock_enter_lp_callback,
    cyhal_pwm_stop, cyhal_pwm_start, cyhal_pwm_set_duty_cycle, cyhal_system_clock_set_frequency,
    PWM_50P_DUTY_CYCLE, PWM_FAST_FREQ, SYSTEM_CLOCK, CLOCK_100_MHZ]

theorem main_switch_short_from_lp :
    main_switch en_switch_event_t.SWITCH_SHORT_PRESS ⟨SystemMode.LP, r, d, f, c, l⟩ =
      ⟨SystemMode.LP, true, 50, 5, c,
        l ++ [request CY_SYSPM_SLEEP, pwm_stop, pwm_set_duty_cycle 0 100, pwm_start,
              enter CY_SYSPM_SLEEP, pwm_stop, pwm_set_duty_cycle 50 5, pwm_start, delay 100]⟩ := by
  simp [main_switch, Cy_SysPm_IsSystemUlp, cyhal_system_sleep, platform_transition,
    platform_before, platform_enter, Sys.emit, exec_sleep_before, exec_sleep_after,
    pwm_sleep_callback, Cy_SysLib_Delay,
    cyhal_pwm_stop, cyhal_pwm_start, cyhal_pwm_set_duty_cycle,
    PWM_50P_DUTY_CYCLE, PWM_FAST_FREQ, PWM_SLOW_FREQ, PWM_DIM_FREQ, PWM_10P_DUTY_CYCLE,
    PWM_100P_DUTY_CYCLE]

theorem main_switch_short_from_ulp :
    main_switch en_switch_event_t.SWITCH_SHORT_PRESS ⟨SystemMode.ULP, r, d, f, c, l⟩ =
      ⟨SystemMode.ULP, true, 50, 3, c,
        l ++ [request CY_SYSPM_SLEEP, pwm_stop, pwm_set_duty_cycle 90 100, pwm_start,
              enter CY_SYSPM_SLEEP, pwm_stop, pwm_set_duty_cycle 50 3, pwm_start, delay 100]⟩ := by
  simp [main_switch, Cy_SysPm_IsSystemUlp, cyhal_system_sleep, platform_transition,
    platform_before, platform_enter, Sys.emit, exec_sleep_before, exec_sleep_after,
    pwm_sleep_callback, Cy_SysLib_Delay,
    cyhal_pwm_stop, cyhal_pwm_start, cyhal_pwm_set_duty_cycle,
    PWM_50P_DUTY_CYCLE, PWM_FAST_FREQ, PWM_SLOW_FREQ, PWM_DIM_FREQ, PWM_10P_DUTY_CYCLE,
    PWM_100P_DUTY_CYCLE]

theorem main_switch_long_from_lp :
    main_switch en_switch_event_t.SWITCH_LONG_PRESS ⟨SystemMode.LP, r, d, f, c, l⟩ =
      ⟨SystemMode.LP, true, 50, 5, c,
        l ++ [request CY_SYSPM_DEEPSLEEP, pwm_stop, enter CY_SYSPM_DEEPSLEEP, pwm_stop,
              pwm_set_duty_cycle 50 5, tcpwm_pwm_enable, pwm_start, delay 100]⟩ := by
  simp [main_switch, Cy_SysPm_IsSystemUlp, cyhal_system_deepsleep, platform_transition,
    platform_before, platform_enter, Sys.emit, exec_deepsleep_before, exec_deepsleep_after,
    pwm_deepsleep_callback, Cy_SysLib_Delay, Cy_TCPWM_PWM_Enable,
    cyhal_pwm_stop, cyhal_pwm_start, cyhal_pwm_set_duty_cycle,
    PWM_50P_DUTY_CYCLE, PWM_FAST_FREQ, PWM_SLOW_FREQ]

theorem main_switch_long_from_ulp :
    main_switch en_switch_event_t.SWITCH_LONG_PRESS ⟨SystemMode.ULP, r, d, f, c, l⟩ =
      ⟨SystemMode.ULP, true, 50, 3, c,
        l ++ [request CY_SYSPM_DEEPSLEEP, pwm_stop, enter CY_SYSPM_DEEPSLEEP, pwm_stop,
              pwm_set_duty_cycle 50 3, tcpwm_pwm_enable, pwm_start, delay 100]⟩ := by
  simp [main_switch, Cy_SysPm_IsSystemUlp, cyhal_system_deepsleep, platform_transition,
    platform_before, platform_enter, Sys.emit, exec_deepsleep_before, exec_deepsleep_after,
    pwm_deepsleep_callback, Cy_SysLib_Delay, Cy_TCPWM_PWM_Enable,
    cyhal_pwm_stop, cyhal_pwm_start, cyhal_pwm_set_duty_cycle,
    PWM_50P_DUTY_CYCLE, PWM_FAST_FREQ, PWM_SLOW_FREQ]

end Evaluation

/-! ## The sampling loop of `get_switch_event` -/

section Sampling

theorem get_switch_event_while_pressed (btn : Nat → Bool) (d : Nat) :
    ∀ (fuel i p : Nat) (s : Sys), d < fuel → p + d < 2 ^ 32 →
      (∀ k, k < d → btn (i + k) = true) → btn (i + d) = false →
      get_switch_event_while btn fuel i p s =
        some (i + d + 1, p + d,
          { s with log := s.log ++ (pressed_samples d ++ [Action.gpio_read]) }) := by
  induction d with
  | zero =>
    intro fuel i p s hfuel _ _ hrel
    obtain ⟨n, rfl⟩ : ∃ n, fuel = n + 1 := ⟨fuel - 1, by omega⟩
    have hrel0 : btn i = false := by simpa using hrel
    simp [get_switch_event_while, hrel0, Sys.emit, pressed_samples]
  | succ d ih =>
    intro fuel i p s hfuel hcount hheld hrel
    obtain ⟨n, rfl⟩ : ∃ n, fuel = n + 1 := ⟨fuel - 1, by omega⟩
    have hfirst : btn i = true := by simpa using hheld 0 (Nat.succ_pos d)
    have hwrap : (p + 1) % 2 ^ 32 = p + 1 := Nat.mod_eq_of_lt (by omega)
    have hnext : ∀ k, k < d → btn (i + 1 + k) = true := by
      intro k hk
      have := hheld (k + 1) (by omega)
      rwa [show i + (k + 1) = i + 1 + k by omega] at this
    have hrel1 : btn (i + 1 + d) = false := by
      rwa [show i + (d + 1) = i + 1 + d by omega] at hrel
    rw [get_switch_event_while]
    simp only [hfirst, if_true, hwrap]
    rw [ih n (i + 1) (p + 1) _ (by omega) (by omega) hnext hrel1]
    simp [Sys.emit, Cy_SysLib_Delay, pressed_samples, Nat.add_assoc, Nat.add_comm 1 d]

theorem get_switch_event_while_held (btn : Nat → Bool) (fuel : Nat) :
    ∀ (i p : Nat) (s : Sys), (∀ k, btn (i + k) = true) →
      get_switch_event_while btn fuel i p s = none := by
  induction fuel with
  | zero => intro i p s _; rfl
  | succ n ih =>
    intro i p s hheld
    have hfirst : btn i = true := by simpa using hheld 0
    rw [get_switch_event_while]
    simp only [hfirst, if_true]
    apply ih
    intro k
    have := hheld (1 + k)
    rwa [← Nat.add_assoc] at this

theorem pressed_samples_count_read (d : Nat) :
    (pressed_samples d).count Action.gpio_read = d := by
  induction d with
  | zero => rfl
  | succ d ih => simp [pressed_samples, ih]

theorem pressed_samples_count_delay (d : Nat) :
    (pressed_samples d).count (Action.delay 10) = d := by
  induction d with
  | zero => rfl
  | succ d ih => simp [pressed_samples, ih]

theorem pressed_samples_length (d : Nat) : (pressed_samples d).length = 2 * d := by
  induction d with
  | zero => rfl
  | succ d ih => simp [pressed_samples, ih]; omega

end Sampling

/-! ## The order of the handlers within one phase -/

section Order

theorem perm_pair_cases {α : Type} {a b : α} {l : List α} (h : l.Perm [a, b]) :
    l = [a, b] ∨ l = [b, a] := by
  have hlen := h.length_eq
  match l, h, hlen with
  | [x, y], h, _ =>
    have ha : a ∈ [x, y] := h.symm.subset (List.mem_cons_self a [b])
    simp only [List.mem_cons, List.mem_singleton, List.not_mem_nil, or_false] at ha
    rcases ha with rfl | rfl
    · have hy : [y] = [b] := List.perm_singleton.mp h.cons_inv
      left
      rw [List.cons.injEq] at hy
      rw [hy.1]
    · have hswap : List.Perm [a, x] [a, b] := (List.Perm.swap x a []).trans h
      have hx : [x] = [b] := List.perm_singleton.mp hswap.cons_inv
      right
      rw [List.cons.injEq] at hx
      rw [hx.1]

theorem perm_short {α : Type} {l m : List α} (h : l.Perm m) (hm : m.length ≤ 1) :
    l = m := by
  match m, h, hm with
  | [], h, _ => exact List.perm_nil.mp h
  | [x], h, _ => exact List.perm_singleton.mp h

theorem exec_filter (cbs : List cyhal_system_callback_t)
    (kind : cy_en_syspm_callback_type_t) (mode : cy_en_syspm_callback_mode_t) :
    ∀ s : Sys, Cy_SysPm_ExecuteCallback cbs kind mode s =
      Cy_SysPm_ExecuteCallback (cbs.filter (fun cb => cb.takes_part kind mode)) kind mode s := by
  induction cbs with
  | nil => intro s; rfl
  | cons cb rest ih =>
    intro s
    by_cases hcb : cb.takes_part kind mode = true
    · simp only [List.filter_cons, hcb, if_true, Cy_SysPm_ExecuteCallback]
      rw [ih]
    · simp only [List.filter_cons, hcb, if_false, Cy_SysPm_ExecuteCallback]
      exact ih s

theorem exec_lp_after_swapped (s : Sys) :
    (Cy_SysPm_ExecuteCallback [clkEnterLpCb, pwmEnterLpCb] CY_SYSPM_LP
        CY_SYSPM_AFTER_TRANSITION s).2.observable =
      (Cy_SysPm_ExecuteCallback [pwmEnterLpCb, clkEnterLpCb] CY_SYSPM_LP
        CY_SYSPM_AFTER_TRANSITION s).2.observable := rfl

theorem exec_perm_observable (cbs : List cyhal_system_callback_t)
    (h : cbs.Perm main_callbacks) (kind : cy_en_syspm_callback_type_t)
    (mode : cy_en_syspm_callback_mode_t) (s : Sys) :
    (Cy_SysPm_ExecuteCallback cbs kind mode s).2.observable =
      (Cy_SysPm_ExecuteCallback main_callbacks kind mode s).2.observable := by
  have hf := h.filter (fun cb => cb.takes_part kind mode)
  rw [exec_filter cbs, exec_filter main_callbacks]
  by_cases hpair : kind = CY_SYSPM_LP ∧ mode = CY_SYSPM_AFTER_TRANSITION
  · obtain ⟨rfl, rfl⟩ := hpair
    have hmain : main_callbacks.filter
        (fun cb => cb.takes_part CY_SYSPM_LP CY_SYSPM_AFTER_TRANSITION) =
          [pwmEnterLpCb, clkEnterLpCb] := rfl
    rw [hmain] at hf ⊢
    rcases perm_pair_cases hf with hl | hl
    · rw [hl]
    · rw [hl]; exact exec_lp_after_swapped s
  · have hshort : (main_callbacks.filter (fun cb => cb.takes_part kind mode)).length ≤ 1 := by
      cases kind <;> cases mode
      all_goals first | decide | exact absurd ⟨rfl, rfl⟩ hpair
    rw [perm_short hf hshort]

theorem exec_perm_before (cbs : List cyhal_system_callback_t)
    (h : cbs.Perm main_callbacks) (kind : cy_en_syspm_callback_type_t) (s : Sys) :
    Cy_SysPm_ExecuteCallback cbs kind CY_SYSPM_BEFORE_TRANSITION s =
      Cy_SysPm_ExecuteCallback main_callbacks kind CY_SYSPM_BEFORE_TRANSITION s := by
  have hf := h.filter (fun cb => cb.takes_part kind CY_SYSPM_BEFORE_TRANSITION)
  rw [exec_filter cbs, exec_filter main_callbacks]
  have hshort : (main_callbacks.filter
      (fun cb => cb.takes_part kind CY_SYSPM_BEFORE_TRANSITION)).length ≤ 1 := by
    cases kind <;> decide
  rw [perm_short hf hshort]

theorem platform_transition_perm_observable (cbs : List cyhal_system_callback_t)
    (h : cbs.Perm main_callbacks) (kind : cy_en_syspm_callback_type_t) (s : Sys) :
    (platform_transition cbs kind s).2.observable =
      (platform_transition main_callbacks kind s).2.observable := by
  have hsnd : ∀ l : List cyhal_system_callback_t, (platform_transition l kind s).2 =
      (Cy_SysPm_ExecuteCallback l kind CY_SYSPM_AFTER_TRANSITION
        (platform_enter kind (platform_before l kind s).2)).2 := fun _ => rfl
  rw [hsnd cbs, hsnd main_callbacks]
  have hbefore : platform_before cbs kind s = platform_before main_callbacks kind s := by
    unfold platform_before
    exact exec_perm_before cbs h kind _
  rw [hbefore]
  exact exec_perm_observable cbs h kind CY_SYSPM_AFTER_TRANSITION _

end Order

/-! ## The claims -/

section Claims

open Action en_switch_event_t

/-- C1: for every press count `d` (so for every value the 32-bit counter can hold)
the comparison chain of `get_switch_event` yields `SWITCH_LONG_PRESS` iff `d > 200`,
`SWITCH_SHORT_PRESS` iff `20 < d ≤ 200`, `SWITCH_QUICK_PRESS` iff `2 < d ≤ 20` and
`SWITCH_NO_EVENT` iff `d ≤ 2`; the comparisons are strict, so 200 is Short, 20 is
Quick and 2 is None. -/
theorem get_switch_event_classify_thresholds (d : Nat) :
    (get_switch_event_classify d = SWITCH_LONG_PRESS ↔ d > 200) ∧
    (get_switch_event_classify d = SWITCH_SHORT_PRESS ↔ 20 < d ∧ d ≤ 200) ∧
    (get_switch_event_classify d = SWITCH_QUICK_PRESS ↔ 2 < d ∧ d ≤ 20) ∧
    (get_switch_event_classify d = SWITCH_NO_EVENT ↔ d ≤ 2) ∧
    get_switch_event_classify 200 = SWITCH_SHORT_PRESS ∧
    get_switch_event_classify 20 = SWITCH_QUICK_PRESS ∧
    get_switch_event_classify 2 = SWITCH_NO_EVENT := by
  refine ⟨?_, ?_, ?_, ?_, by decide, by decide, by decide⟩ <;>
    · unfold get_switch_event_classify LONG_PRESS_COUNT SHORT_PRESS_COUNT QUICK_PRESS_COUNT
      split_ifs <;> simp <;> omega

/-- C2: whatever the current mode, handling a Quick event makes exactly one
transition request and never enters Sleep or DeepSleep: the request is EnterLP when
the system is in ULP and EnterULP otherwise, so the mode the request leads to differs
from the current mode, and so does the mode after the event. -/
theorem main_switch_quick_single_request (s : Sys) :
    s.since (main_switch SWITCH_QUICK_PRESS s) =
      (if s.mode = SystemMode.ULP then
        [request CY_SYSPM_LP, enter CY_SYSPM_LP, pwm_stop, pwm_set_duty_cycle 50 5,
          pwm_start, clock_set_frequency 0 100000000]
      else
        [request CY_SYSPM_ULP, clock_set_frequency 0 50000000, enter CY_SYSPM_ULP,
          pwm_stop, pwm_set_duty_cycle 50 3, pwm_start]) ∧
    (s.since (main_switch SWITCH_QUICK_PRESS s)).filter Action.is_request =
      [request (if s.mode = SystemMode.ULP then CY_SYSPM_LP else CY_SYSPM_ULP)] ∧
    enter CY_SYSPM_SLEEP ∉ s.since (main_switch SWITCH_QUICK_PRESS s) ∧
    enter CY_SYSPM_DEEPSLEEP ∉ s.since (main_switch SWITCH_QUICK_PRESS s) ∧
    (platform_enter (if s.mode = SystemMode.ULP then CY_SYSPM_LP else CY_SYSPM_ULP) s).mode
      ≠ s.mode ∧
    (main_switch SWITCH_QUICK_PRESS s).mode ≠ s.mode := by
  obtain ⟨m, r, d, f, c, l⟩ := s
  cases m
  · simp [Sys.since, main_switch_quick_from_lp, Action.is_request, platform_enter]
  · simp [Sys.since, main_switch_quick_from_ulp, Action.is_request, platform_enter]

/-- C3: starting in Active-LP, handling a Quick event ends in Active-ULP with the
indicator running at 50% duty and 3 Hz and the system clock at 50 MHz. -/
theorem quick_press_from_lp (s : Sys) (h : s.mode = SystemMode.LP) :
    (main_switch SWITCH_QUICK_PRESS s).mode = SystemMode.ULP ∧
    (main_switch SWITCH_QUICK_PRESS s).pwmRunning = true ∧
    (main_switch SWITCH_QUICK_PRESS s).pwmDuty = PWM_50P_DUTY_CYCLE ∧
    led_on_percent (main_switch SWITCH_QUICK_PRESS s).pwmDuty = 50 ∧
    (main_switch SWITCH_QUICK_PRESS s).pwmFreq = 3 ∧
    (main_switch SWITCH_QUICK_PRESS s).clockHz = 50000000 := by
  obtain ⟨m, r, d, f, c, l⟩ := s
  subst h
  simp [main_switch_quick_from_lp, PWM_50P_DUTY_CYCLE, led_on_percent]

/-- Witness of C3 at the state in which `main` enters its loop. -/
theorem quick_press_from_lp_witness :
    main_init.mode = SystemMode.LP ∧
    (main_switch SWITCH_QUICK_PRESS main_init).mode = SystemMode.ULP ∧
    (main_switch SWITCH_QUICK_PRESS main_init).pwmRunning = true ∧
    (main_switch SWITCH_QUICK_PRESS main_init).pwmDuty = PWM_50P_DUTY_CYCLE ∧
    led_on_percent (main_switch SWITCH_QUICK_PRESS main_init).pwmDuty = 50 ∧
    (main_switch SWITCH_QUICK_PRESS main_init).pwmFreq = 3 ∧
    (main_switch SWITCH_QUICK_PRESS main_init).clockHz = 50000000 :=
  ⟨rfl, quick_press_from_lp main_init rfl⟩

/-- C4: handling a Short event enters Sleep and leaves the power mode unchanged.
Before sleeping the indicator is set, at 100 Hz, to `PWM_10P_DUTY_CYCLE` (LED lit
10% of the period) when the mode is ULP and to `PWM_100P_DUTY_CYCLE` (duty value 0,
LED fully on) otherwise; on wake it is set to 50% duty at 3 Hz in ULP and 5 Hz
otherwise; a 100 ms delay is the last thing the handling does. From Active-ULP this
is 10%/100 Hz before sleeping and 50%/3 Hz after wake. -/
theorem short_press_sleep (s : Sys) :
    (main_switch SWITCH_SHORT_PRESS s).mode = s.mode ∧
    s.since (main_switch SWITCH_SHORT_PRESS s) =
      [request CY_SYSPM_SLEEP,
       pwm_stop, pwm_set_duty_cycle (if s.mode = SystemMode.ULP then 90 else 0) 100, pwm_start,
       enter CY_SYSPM_SLEEP,
       pwm_stop, pwm_set_duty_cycle 50 (if s.mode = SystemMode.ULP then 3 else 5), pwm_start,
       delay 100] ∧
    (platform_before main_callbacks CY_SYSPM_SLEEP s).2.mode = s.mode ∧
    (platform_before main_callbacks CY_SYSPM_SLEEP s).2.pwmRunning = true ∧
    (platform_before main_callbacks CY_SYSPM_SLEEP s).2.pwmFreq = PWM_DIM_FREQ ∧
    (platform_before main_callbacks CY_SYSPM_SLEEP s).2.pwmDuty =
      (if s.mode = SystemMode.ULP then PWM_10P_DUTY_CYCLE else PWM_100P_DUTY_CYCLE) ∧
    led_on_percent (platform_before main_callbacks CY_SYSPM_SLEEP s).2.pwmDuty =
      (if s.mode = SystemMode.ULP then 10 else 100) ∧
    (main_switch SWITCH_SHORT_PRESS s).pwmRunning = true ∧
    (main_switch SWITCH_SHORT_PRESS s).pwmDuty = PWM_50P_DUTY_CYCLE ∧
    led_on_percent (main_switch SWITCH_SHORT_PRESS s).pwmDuty = 50 ∧
    (main_switch SWITCH_SHORT_PRESS s).pwmFreq =
      (if s.mode = SystemMode.ULP then PWM_SLOW_FREQ else PWM_FAST_FREQ) ∧
    (s.since (main_switch SWITCH_SHORT_PRESS s)).getLast? = some (delay 100) := by
  obtain ⟨m, r, d, f, c, l⟩ := s
  cases m
  · simp [Sys.since, main_switch_short_from_lp, platform_before, exec_sleep_before,
      pwm_sleep_callback, Sys.emit, Cy_SysPm_IsSystemUlp, cyhal_pwm_stop, cyhal_pwm_start,
      cyhal_pwm_set_duty_cycle, PWM_50P_DUTY_CYCLE, PWM_10P_DUTY_CYCLE, PWM_100P_DUTY_CYCLE,
      PWM_DIM_FREQ, PWM_FAST_FREQ, PWM_SLOW_FREQ, led_on_percent]
  · simp [Sys.since, main_switch_short_from_ulp, platform_before, exec_sleep_before,
      pwm_sleep_callback, Sys.emit, Cy_SysPm_IsSystemUlp, cyhal_pwm_stop, cyhal_pwm_start,
      cyhal_pwm_set_duty_cycle, PWM_50P_DUTY_CYCLE, PWM_10P_DUTY_CYCLE, PWM_100P_DUTY_CYCLE,
      PWM_DIM_FREQ, PWM_FAST_FREQ, PWM_SLOW_FREQ, led_on_percent]

/-- C5: in either active mode, handling a Long event enters DeepSleep; after wake
the mode is the one that was active before, the indicator runs at 50% duty with
3 Hz in ULP and 5 Hz in LP, and a 100 ms delay follows the resume. -/
theorem long_press_deepsleep (s : Sys) :
    (main_switch SWITCH_LONG_PRESS s).mode = s.mode ∧
    s.since (main_switch SWITCH_LONG_PRESS s) =
      [request CY_SYSPM_DEEPSLEEP, pwm_stop, enter CY_SYSPM_DEEPSLEEP,
       pwm_stop, pwm_set_duty_cycle 50 (if s.mode = SystemMode.ULP then 3 else 5),
       tcpwm_pwm_enable, pwm_start,
       delay 100] ∧
    (main_switch SWITCH_LONG_PRESS s).pwmRunning = true ∧
    (main_switch SWITCH_LONG_PRESS s).pwmDuty = PWM_50P_DUTY_CYCLE ∧
    led_on_percent (main_switch SWITCH_LONG_PRESS s).pwmDuty = 50 ∧
    (main_switch SWITCH_LONG_PRESS s).pwmFreq =
      (if s.mode = SystemMode.ULP then PWM_SLOW_FREQ else PWM_FAST_FREQ) ∧
    (main_switch SWITCH_LONG_PRESS s).clockHz = s.clockHz := by
  obtain ⟨m, r, d, f, c, l⟩ := s
  cases m
  · simp [Sys.since, main_switch_long_from_lp, PWM_50P_DUTY_CYCLE, PWM_FAST_FREQ,
      led_on_percent]
  · simp [Sys.since, main_switch_long_from_ulp, PWM_50P_DUTY_CYCLE, PWM_SLOW_FREQ,
      led_on_percent]

/-- C6 as stated fails: `pwmDeepSleepCb` does not skip the before-transition mode,
and `pwm_deepsleep_callback` invoked with it only stops the PWM: nothing is applied,
nothing is restarted, and the indicator is stopped when the callback returns (also
in the first phase of the DeepSleep transition that `main` requests). -/
theorem pwm_deepsleep_before_not_restarted :
    pwmDeepSleepCb.takes_part pwmDeepSleepCb.type CY_SYSPM_BEFORE_TRANSITION = true ∧
    main_init.since (pwm_deepsleep_callback CY_SYSPM_BEFORE_TRANSITION main_init).2 =
      [pwm_stop] ∧
    stops_applies_restarts
      (main_init.since (pwm_deepsleep_callback CY_SYSPM_BEFORE_TRANSITION main_init).2) = false ∧
    (pwm_deepsleep_callback CY_SYSPM_BEFORE_TRANSITION main_init).2.pwmRunning = false ∧
    (platform_before main_callbacks CY_SYSPM_DEEPSLEEP main_init).2.pwmRunning = false := by
  decide

/-- C6, amended: every indicator callback, in every callback mode, first stops the
indicator output. `pwm_deepsleep_callback` invoked with a mode other than the
after-transition one (its registration lets the before-transition mode through) does
nothing else: the indicator stays stopped, duty cycle and frequency untouched. In
every other case the callback restarts the output last, so the indicator is running
when it returns, and between the stop and the restart it applies the duty cycle and
frequency exactly in the modes that its registration does not skip. -/
theorem indicator_callback_sequence (cb : cyhal_system_callback_t)
    (hcb : cb ∈ [pwmSleepCb, pwmDeepSleepCb, pwmEnterLpCb, pwmEnterUlpCb])
    (mode : cy_en_syspm_callback_mode_t) (s : Sys) :
    (s.since (cb.callback mode s).2).head? = some pwm_stop ∧
    (if cb.type = CY_SYSPM_DEEPSLEEP ∧ mode ≠ CY_SYSPM_AFTER_TRANSITION then
      s.since (cb.callback mode s).2 = [pwm_stop] ∧
      (cb.callback mode s).2 = { s with pwmRunning := false, log := s.log ++ [pwm_stop] }
    else
      (s.since (cb.callback mode s).2).getLast? = some pwm_start ∧
      (cb.callback mode s).2.pwmRunning = true ∧
      stops_applies_restarts (s.since (cb.callback mode s).2) = cb.takes_part cb.type mode) := by
  simp only [List.mem_cons, List.mem_singleton, List.not_mem_nil, or_false] at hcb
  have hReady : ∀ n : Nat, n = 3 ∨ n = 7 → (n &&& CY_SYSPM_SKIP_CHECK_READY == 0) = false := by
    rintro n (rfl | rfl) <;> decide
  have hFail : ∀ n : Nat, n = 3 ∨ n = 7 → (n &&& CY_SYSPM_SKIP_CHECK_FAIL == 0) = false := by
    rintro n (rfl | rfl) <;> decide
  have hBefore3 : ((3 : Nat) &&& CY_SYSPM_SKIP_BEFORE_TRANSITION == 0) = true := by decide
  have hBefore7 : ((7 : Nat) &&& CY_SYSPM_SKIP_BEFORE_TRANSITION == 0) = false := by decide
  have hAfter3 : ((3 : Nat) &&& CY_SYSPM_SKIP_AFTER_TRANSITION == 0) = true := by decide
  have hAfter7 : ((7 : Nat) &&& CY_SYSPM_SKIP_AFTER_TRANSITION == 0) = true := by decide
  have h3 : CY_SYSPM_SKIP_CHECK_READY ||| CY_SYSPM_SKIP_CHECK_FAIL = 3 := by decide
  have h7 : CY_SYSPM_SKIP_BEFORE_TRANSITION ||| CY_SYSPM_SKIP_CHECK_READY |||
      CY_SYSPM_SKIP_CHECK_FAIL = 7 := by decide
  obtain ⟨m, r, d, f, c, l⟩ := s
  rcases hcb with rfl | rfl | rfl | rfl <;> cases mode <;> cases m <;>
    simp [Sys.since, stops_applies_restarts, pwmSleepCb, pwmDeepSleepCb, pwmEnterLpCb,
      pwmEnterUlpCb, pwm_sleep_callback, pwm_deepsleep_callback, pwm_enter_lp_callback,
      pwm_enter_ulp_callback, Cy_SysPm_IsSystemUlp, Cy_TCPWM_PWM_Enable, Sys.emit,
      cyhal_pwm_stop, cyhal_pwm_start, cyhal_pwm_set_duty_cycle,
      cyhal_system_callback_t.takes_part, skip_flag_of, h3, h7, hReady, hFail, hBefore3,
      hBefore7, hAfter3, hAfter7]

/-- Witness of the amended C6: `pwm_sleep_callback` before the transition, in the
state in which `main` enters its loop. -/
theorem indicator_callback_sequence_witness :
    pwmSleepCb ∈ [pwmSleepCb, pwmDeepSleepCb, pwmEnterLpCb, pwmEnterUlpCb] ∧
    (main_init.since (pwmSleepCb.callback CY_SYSPM_BEFORE_TRANSITION main_init).2).head? =
      some pwm_stop ∧
    (if pwmSleepCb.type = CY_SYSPM_DEEPSLEEP ∧
        CY_SYSPM_BEFORE_TRANSITION ≠ CY_SYSPM_AFTER_TRANSITION then
      main_init.since (pwmSleepCb.callback CY_SYSPM_BEFORE_TRANSITION main_init).2 =
        [pwm_stop] ∧
      (pwmSleepCb.callback CY_SYSPM_BEFORE_TRANSITION main_init).2 =
        { main_init with pwmRunning := false, log := main_init.log ++ [pwm_stop] }
    else
      (main_init.since (pwmSleepCb.callback CY_SYSPM_BEFORE_TRANSITION main_init).2).getLast? =
        some pwm_start ∧
      (pwmSleepCb.callback CY_SYSPM_BEFORE_TRANSITION main_init).2.pwmRunning = true ∧
      stops_applies_restarts
        (main_init.since (pwmSleepCb.callback CY_SYSPM_BEFORE_TRANSITION main_init).2) =
        pwmSleepCb.takes_part pwmSleepCb.type CY_SYSPM_BEFORE_TRANSITION) :=
  ⟨List.mem_cons_self _ _,
    indicator_callback_sequence pwmSleepCb (List.mem_cons_self _ _)
      CY_SYSPM_BEFORE_TRANSITION main_init⟩

/-- C7: for every state and every event among Quick, Short and Long, once the event
has been handled the indicator is running at 50% duty, with 3 Hz if the resulting
mode is Active-ULP and 5 Hz if it is Active-LP, whatever the running flag, duty cycle
and frequency were before. -/
theorem indicator_after_event (s : Sys) (event : en_switch_event_t)
    (h : event ≠ SWITCH_NO_EVENT) :
    (main_switch event s).pwmRunning = true ∧
    (main_switch event s).pwmDuty = PWM_50P_DUTY_CYCLE ∧
    led_on_percent (main_switch event s).pwmDuty = 50 ∧
    (main_switch event s).pwmFreq =
      (if (main_switch event s).mode = SystemMode.ULP then PWM_SLOW_FREQ else PWM_FAST_FREQ) := by
  obtain ⟨m, r, d, f, c, l⟩ := s
  cases event <;> cases m <;>
    first
    | exact absurd rfl h
    | simp [main_switch_quick_from_lp, main_switch_quick_from_ulp, main_switch_short_from_lp,
        main_switch_short_from_ulp, main_switch_long_from_lp, main_switch_long_from_ulp,
        PWM_50P_DUTY_CYCLE, PWM_SLOW_FREQ, PWM_FAST_FREQ, led_on_percent]

/-- Witness of C7: a Short event in Active-ULP with the indicator stopped at an
arbitrary duty cycle and frequency. -/
theorem indicator_after_event_witness :
    SWITCH_SHORT_PRESS ≠ SWITCH_NO_EVENT ∧
    (main_switch SWITCH_SHORT_PRESS ⟨SystemMode.ULP, false, 7, 9, 50000000, []⟩).pwmRunning
      = true ∧
    (main_switch SWITCH_SHORT_PRESS ⟨SystemMode.ULP, false, 7, 9, 50000000, []⟩).pwmDuty
      = PWM_50P_DUTY_CYCLE ∧
    led_on_percent
      (main_switch SWITCH_SHORT_PRESS ⟨SystemMode.ULP, false, 7, 9, 50000000, []⟩).pwmDuty
      = 50 ∧
    (main_switch SWITCH_SHORT_PRESS ⟨SystemMode.ULP, false, 7, 9, 50000000, []⟩).pwmFreq =
      (if (main_switch SWITCH_SHORT_PRESS ⟨SystemMode.ULP, false, 7, 9, 50000000, []⟩).mode
          = SystemMode.ULP then PWM_SLOW_FREQ else PWM_FAST_FREQ) :=
  ⟨by decide,
    indicator_after_event ⟨SystemMode.ULP, false, 7, 9, 50000000, []⟩ SWITCH_SHORT_PRESS
      (by decide)⟩

/-- C8: `clock_enter_ulp_callback` sets the system clock to 50,000,000 Hz when invoked
with the before-transition mode and `clock_enter_lp_callback` sets it to
100,000,000 Hz when invoked with the after-transition mode; in every other mode each
returns the state as it was. Neither touches the indicator or the mode, and handling
a Short or a Long event leaves the clock frequency unchanged. -/
theorem clock_callbacks_frame (s : Sys) (mode : cy_en_syspm_callback_mode_t) :
    (clock_enter_ulp_callback mode s).2 =
      (if mode = CY_SYSPM_BEFORE_TRANSITION then
        { s with clockHz := 50000000,
                 log := s.log ++ [clock_set_frequency SYSTEM_CLOCK 50000000] }
      else s) ∧
    (clock_enter_lp_callback mode s).2 =
      (if mode = CY_SYSPM_AFTER_TRANSITION then
        { s with clockHz := 100000000,
                 log := s.log ++ [clock_set_frequency SYSTEM_CLOCK 100000000] }
      else s) ∧
    ((clock_enter_ulp_callback mode s).2.pwmRunning = s.pwmRunning ∧
      (clock_enter_ulp_callback mode s).2.pwmDuty = s.pwmDuty ∧
      (clock_enter_ulp_callback mode s).2.pwmFreq = s.pwmFreq ∧
      (clock_enter_ulp_callback mode s).2.mode = s.mode) ∧
    ((clock_enter_lp_callback mode s).2.pwmRunning = s.pwmRunning ∧
      (clock_enter_lp_callback mode s).2.pwmDuty = s.pwmDuty ∧
      (clock_enter_lp_callback mode s).2.pwmFreq = s.pwmFreq ∧
      (clock_enter_lp_callback mode s).2.mode = s.mode) ∧
    (main_switch SWITCH_SHORT_PRESS s).clockHz = s.clockHz ∧
    (main_switch SWITCH_LONG_PRESS s).clockHz = s.clockHz := by
  obtain ⟨m, r, d, f, c, l⟩ := s
  cases mode <;> cases m <;>
    simp [clock_enter_ulp_callback, clock_enter_lp_callback, cyhal_system_clock_set_frequency,
      CLOCK_50_MHZ, CLOCK_100_MHZ, SYSTEM_CLOCK, main_switch_short_from_lp,
      main_switch_short_from_ulp, main_switch_long_from_lp, main_switch_long_from_ulp]

/-- C9: each of the six registered handlers returns `CY_SYSPM_SUCCESS` in every
callback mode and every state, hence never `CY_SYSPM_FAIL` (the value each gives its
status variable first). -/
theorem callbacks_return_success (mode : cy_en_syspm_callback_mode_t) (s : Sys) :
    (pwm_sleep_callback mode s).1 = CY_SYSPM_SUCCESS ∧
    (pwm_deepsleep_callback mode s).1 = CY_SYSPM_SUCCESS ∧
    (pwm_enter_lp_callback mode s).1 = CY_SYSPM_SUCCESS ∧
    (pwm_enter_ulp_callback mode s).1 = CY_SYSPM_SUCCESS ∧
    (clock_enter_lp_callback mode s).1 = CY_SYSPM_SUCCESS ∧
    (clock_enter_ulp_callback mode s).1 = CY_SYSPM_SUCCESS ∧
    (∀ cb ∈ main_callbacks, (cb.callback mode s).1 ≠ CY_SYSPM_FAIL) := by
  have h : (pwm_sleep_callback mode s).1 = CY_SYSPM_SUCCESS ∧
      (pwm_deepsleep_callback mode s).1 = CY_SYSPM_SUCCESS ∧
      (pwm_enter_lp_callback mode s).1 = CY_SYSPM_SUCCESS ∧
      (pwm_enter_ulp_callback mode s).1 = CY_SYSPM_SUCCESS ∧
      (clock_enter_lp_callback mode s).1 = CY_SYSPM_SUCCESS ∧
      (clock_enter_ulp_callback mode s).1 = CY_SYSPM_SUCCESS := by
    cases mode <;> exact ⟨rfl, rfl, rfl, rfl, rfl, rfl⟩
  obtain ⟨h1, h2, h3, h4, h5, h6⟩ := h
  refine ⟨h1, h2, h3, h4, h5, h6, ?_⟩
  intro cb hcb
  simp only [main_callbacks, cyhal_system_register_callback, List.nil_append,
    List.cons_append, List.mem_cons, List.mem_singleton, List.not_mem_nil, or_false] at hcb
  rcases hcb with rfl | rfl | rfl | rfl | rfl | rfl <;>
    simp [pwmSleepCb, pwmDeepSleepCb, pwmEnterUlpCb, pwmEnterLpCb, clkEnterUlpCb,
      clkEnterLpCb, h1, h2, h3, h4, h5, h6]

/-- C10: `pwm_deepsleep_callback` invoked with the before-transition mode stops the
indicator and changes nothing else (duty cycle and frequency stay); invoked with the
after-transition mode it sets the blink pattern (50% duty, 3 Hz in ULP, 5 Hz
otherwise) and leaves the indicator running. -/
theorem pwm_deepsleep_callback_off_then_blink (s : Sys) :
    (pwm_deepsleep_callback CY_SYSPM_BEFORE_TRANSITION s).2 =
      { s with pwmRunning := false, log := s.log ++ [pwm_stop] } ∧
    (pwm_deepsleep_callback CY_SYSPM_AFTER_TRANSITION s).2 =
      { s with pwmRunning := true, pwmDuty := 50,
               pwmFreq := if s.mode = SystemMode.ULP then 3 else 5,
               log := s.log ++ [pwm_stop,
                 pwm_set_duty_cycle 50 (if s.mode = SystemMode.ULP then 3 else 5),
                 tcpwm_pwm_enable, pwm_start] } ∧
    (pwm_deepsleep_callback CY_SYSPM_BEFORE_TRANSITION s).2.pwmRunning = false ∧
    (pwm_deepsleep_callback CY_SYSPM_BEFORE_TRANSITION s).2.pwmDuty = s.pwmDuty ∧
    (pwm_deepsleep_callback CY_SYSPM_BEFORE_TRANSITION s).2.pwmFreq = s.pwmFreq ∧
    (pwm_deepsleep_callback CY_SYSPM_AFTER_TRANSITION s).2.pwmRunning = true ∧
    (pwm_deepsleep_callback CY_SYSPM_AFTER_TRANSITION s).2.pwmDuty = PWM_50P_DUTY_CYCLE ∧
    led_on_percent (pwm_deepsleep_callback CY_SYSPM_AFTER_TRANSITION s).2.pwmDuty = 50 ∧
    (pwm_deepsleep_callback CY_SYSPM_AFTER_TRANSITION s).2.pwmFreq =
      (if s.mode = SystemMode.ULP then PWM_SLOW_FREQ else PWM_FAST_FREQ) := by
  obtain ⟨m, r, d, f, c, l⟩ := s
  cases m <;>
    simp [pwm_deepsleep_callback, Cy_SysPm_IsSystemUlp, Cy_TCPWM_PWM_Enable, Sys.emit,
      cyhal_pwm_stop, cyhal_pwm_start, cyhal_pwm_set_duty_cycle, PWM_50P_DUTY_CYCLE,
      PWM_SLOW_FREQ, PWM_FAST_FREQ, led_on_percent]

/-- C11: when the button reads pressed for exactly `d` consecutive samples
(`d < 2 ^ 32`) and then released, `get_switch_event` returns, given fuel for the
`d + 1` passes: it has read the input `d + 1` times and delayed 10 ms `d + 1` times
(one per pressed sample, one after the release) and made no other call, it returns
the classification of `d`, and the power mode, the indicator and the clock are as
before. When the button never reads released it does not return, whatever the fuel. -/
theorem get_switch_event_trace (btn : Nat → Bool) (i d fuel : Nat) (s : Sys)
    (hd : d < 2 ^ 32) (hpressed : ∀ k, k < d → btn (i + k) = true)
    (hreleased : btn (i + d) = false) (hfuel : d < fuel) :
    get_switch_event btn fuel i s =
      some (get_switch_event_classify d, i + d + 1,
        { s with log := s.log ++ (pressed_samples d ++ [gpio_read, delay 10]) }) ∧
    (pressed_samples d ++ [gpio_read, delay 10]).count gpio_read = d + 1 ∧
    (pressed_samples d ++ [gpio_read, delay 10]).count (delay 10) = d + 1 ∧
    (pressed_samples d ++ [gpio_read, delay 10]).length = (d + 1) + (d + 1) ∧
    (get_switch_event btn fuel i s).map (fun r => r.2.2.observable) = some s.observable ∧
    (∀ held : Nat → Bool, (∀ k, held (i + k) = true) →
      ∀ n, get_switch_event held n i s = none) := by
  have hrun : get_switch_event btn fuel i s =
      some (get_switch_event_classify d, i + d + 1,
        { s with log := s.log ++ (pressed_samples d ++ [gpio_read, delay 10]) }) := by
    unfold get_switch_event
    rw [get_switch_event_while_pressed btn d fuel i 0 s hfuel (by omega) hpressed hreleased]
    simp [Cy_SysLib_Delay, Sys.emit]
  refine ⟨hrun, ?_, ?_, ?_, ?_, ?_⟩
  · simp [List.count_append, pressed_samples_count_read]
  · simp [List.count_append, pressed_samples_count_delay]
  · simp [pressed_samples_length]; omega
  · rw [hrun]; rfl
  · intro held hheld n
    unfold get_switch_event
    rw [get_switch_event_while_held held n i 0 s hheld]

/-- Witness of C11: the button is read pressed three times and then released,
starting from the state in which `main` enters its loop. -/
theorem get_switch_event_trace_witness :
    get_switch_event (fun k => decide (k < 3)) 4 0 main_init =
      some (SWITCH_QUICK_PRESS, 4,
        { main_init with log := main_init.log ++
            [gpio_read, delay 10, gpio_read, delay 10, gpio_read, delay 10,
             gpio_read, delay 10] }) :=
  (get_switch_event_trace (fun k => decide (k < 3)) 0 3 4 main_init (by decide) (by decide)
    (by decide) (by decide)).1

/-- C12: every indicator callback commutes with every clock callback: for every
state and every pair of callback modes, running the indicator handler and then the
clock handler gives the same power mode, indicator (running flag, duty cycle,
frequency) and clock as running them in the opposite order. Hence, for every
ordering of the registrations of `main`, each phase of a transition, and the whole
EnterLP and EnterULP transitions, end in the same such state as with the
registration order. -/
theorem indicator_clock_callbacks_commute
    (ind clk : cy_en_syspm_callback_mode_t → Sys → cy_en_syspm_status_t × Sys)
    (hind : ind ∈ [pwm_sleep_callback, pwm_deepsleep_callback, pwm_enter_lp_callback,
      pwm_enter_ulp_callback])
    (hclk : clk ∈ [clock_enter_lp_callback, clock_enter_ulp_callback])
    (modeInd modeClk : cy_en_syspm_callback_mode_t) (s : Sys)
    (cbs : List cyhal_system_callback_t) (hperm : cbs.Perm main_callbacks) :
    (clk modeClk (ind modeInd s).2).2.observable =
      (ind modeInd (clk modeClk s).2).2.observable ∧
    (∀ kind mode, (Cy_SysPm_ExecuteCallback cbs kind mode s).2.observable =
      (Cy_SysPm_ExecuteCallback main_callbacks kind mode s).2.observable) ∧
    (Cy_SysPm_SystemEnterLp cbs s).2.observable =
      (Cy_SysPm_SystemEnterLp main_callbacks s).2.observable ∧
    (Cy_SysPm_SystemEnterUlp cbs s).2.observable =
      (Cy_SysPm_SystemEnterUlp main_callbacks s).2.observable := by
  refine ⟨?_, fun kind mode => exec_perm_observable cbs hperm kind mode s, ?_, ?_⟩
  · simp only [List.mem_cons, List.mem_singleton, List.not_mem_nil, or_false] at hind hclk
    obtain ⟨m, r, d, f, c, l⟩ := s
    rcases hind with rfl | rfl | rfl | rfl <;> rcases hclk with rfl | rfl <;>
      cases modeInd <;> cases modeClk <;> cases m <;> rfl
  · unfold Cy_SysPm_SystemEnterLp
    by_cases hmode : s.mode = SystemMode.LP
    · simp only [hmode, if_true]
    · simp only [hmode, if_false]
      exact platform_transition_perm_observable cbs hperm CY_SYSPM_LP s
  · unfold Cy_SysPm_SystemEnterUlp
    by_cases hmode : s.mode = SystemMode.ULP
    · simp only [hmode, if_true]
    · simp only [hmode, if_false]
      exact platform_transition_perm_observable cbs hperm CY_SYSPM_ULP s

/-- Witness of C12: the fast-blink and the 100 MHz handlers after the transition,
and the registry of `main` in reverse order, from a state in Active-ULP. -/
theorem indicator_clock_callbacks_commute_witness :
    (clock_enter_lp_callback CY_SYSPM_AFTER_TRANSITION
        (pwm_enter_lp_callback CY_SYSPM_AFTER_TRANSITION
          ⟨SystemMode.ULP, true, 50, 3, 50000000, []⟩).2).2.observable =
      (pwm_enter_lp_callback CY_SYSPM_AFTER_TRANSITION
        (clock_enter_lp_callback CY_SYSPM_AFTER_TRANSITION
          ⟨SystemMode.ULP, true, 50, 3, 50000000, []⟩).2).2.observable ∧
    (Cy_SysPm_SystemEnterLp main_callbacks.reverse
        ⟨SystemMode.ULP, true, 50, 3, 50000000, []⟩).2.observable =
      (Cy_SysPm_SystemEnterLp main_callbacks
        ⟨SystemMode.ULP, true, 50, 3, 50000000, []⟩).2.observable :=
  have h := indicator_clock_callbacks_commute pwm_enter_lp_callback clock_enter_lp_callback
    (by simp) (by simp) CY_SYSPM_AFTER_TRANSITION CY_SYSPM_AFTER_TRANSITION
    ⟨SystemMode.ULP, true, 50, 3, 50000000, []⟩ main_callbacks.reverse
    (List.reverse_perm main_callbacks)
  ⟨h.1, h.2.2.1⟩

end Claims

end PowerModes
